import Mathlib

/-!
Verification of the crmos contact-management application.

The repository contains three iterations of the same Flask/SQLite CRM:
`src/barebone/crmos.py` (no accounts), `src/version1/crmos.py`
(accounts, but a contacts table without a `user_id` column), and
`src/version2/crmos2.py` (per-user contacts, categories, CSV export).

Strings are modelled as `List Char`.  SQL queries are modelled as pure
functions over an in-memory list of rows; `ORDER BY name` is binary
(codepoint) order, `LIKE` is the SQLite matcher (case-insensitive for
ASCII, `%` and `_` wildcards, no ESCAPE clause), and Python regular
expressions are translated with Python semantics for `$` (which also
matches just before a single trailing newline).
-/

namespace Crmos

/-- Strings as lists of characters. -/
abbrev Str := List Char

/-- The whitespace characters of Python's `str.strip()` and of the regex
class `\s` (restricted to ASCII, which is all the application compares). -/
def pyWhitespace (c : Char) : Bool :=
  c = ' ' || c = '\t' || c = '\n' || c = '\r' || c = '\x0b' || c = '\x0c'

/-- Python `str.strip()`: remove leading and trailing whitespace. -/
def pyStrip (s : Str) : Str :=
  ((s.dropWhile pyWhitespace).reverse.dropWhile pyWhitespace).reverse

/-! ## Validation (`validate_name`, `validate_phone`, `validate_email`)

`version2/crmos2.py` lines 107-120, `version1/crmos.py` lines 66-73,
`barebone/crmos.py` lines 46-58. -/

/-- `validate_name` (version2 line 107, identical in version1):
`bool(name and len(name.strip()) >= 2)`. -/
def validate_name (name : Str) : Bool :=
  !name.isEmpty && decide (2 ≤ (pyStrip name).length)

/-- Character class `[\d\s\-\+\(\)]` of the phone regexes. -/
def phoneClass (c : Char) : Bool :=
  c.isDigit || pyWhitespace c || c = '-' || c = '+' || c = '(' || c = ')'

/-- Python `re.match(r"^[cls]{lo,hi}$", p) is not None`.  In Python, `$`
matches at the end of the string or just before a newline at the end of
the string, so the regex also accepts `lo..hi` class characters followed
by one final `'\n'`. -/
def reFullMatchClass (cls : Char → Bool) (lo hi : Nat) (p : Str) : Bool :=
  (decide (lo ≤ p.length) && decide (p.length ≤ hi) && p.all cls)
  || (decide (p.getLast? = some '\n')
      && decide (lo ≤ p.length - 1) && decide (p.length - 1 ≤ hi)
      && p.dropLast.all cls)

/-- `validate_phone` of version2 (line 110) and version1 (line 69):
empty is valid, otherwise `re.match(r"^[\d\s\-\+\(\)]{7,20}$", phone)`. -/
def validate_phone (phone : Str) : Bool :=
  phone.isEmpty || reFullMatchClass phoneClass 7 20 phone

/-- `validate_phone` of barebone (line 52): empty is valid, otherwise
`re.match(r'^[\d\s\-\+\(\)]{10,20}$', phone)` — length 10 to 20, not 7. -/
def validate_phone_barebone (phone : Str) : Bool :=
  phone.isEmpty || reFullMatchClass phoneClass 10 20 phone

/-- Character class `[a-zA-Z0-9._%+-]` (local part of the email regex). -/
def emailLocalChar (c : Char) : Bool :=
  c.isAlphanum || c = '.' || c = '_' || c = '%' || c = '+' || c = '-'

/-- Character class `[a-zA-Z0-9.-]` (domain part of the email regex). -/
def emailDomChar (c : Char) : Bool :=
  c.isAlphanum || c = '.' || c = '-'

/-- ASCII letter (the class `[a-zA-Z]`). -/
def asciiAlpha (c : Char) : Bool :=
  c.isAlpha

/-- The tail `[a-zA-Z]{2,}` of the email regex. -/
def emailTld (t : Str) : Bool :=
  decide (2 ≤ t.length) && t.all asciiAlpha

/-- Match of `[a-zA-Z0-9.-]+\.[a-zA-Z]{2,}` against the text after `@`:
some split into a nonempty run of domain characters, a dot, and a TLD. -/
def emailAfterAt (s : Str) : Bool :=
  (List.range s.length).any (fun i =>
    decide (1 ≤ i) && (s.take i).all emailDomChar
    && decide ((s.drop i).head? = some '.') && emailTld (s.drop (i + 1)))

/-- Match of `[a-zA-Z0-9._%+-]+@[a-zA-Z0-9.-]+\.[a-zA-Z]{2,}` against the
whole text: some split at `@` with a nonempty local part. -/
def emailCore (s : Str) : Bool :=
  (List.range s.length).any (fun j =>
    decide (1 ≤ j) && (s.take j).all emailLocalChar
    && decide ((s.drop j).head? = some '@') && emailAfterAt (s.drop (j + 1)))

/-- `validate_email` (version2 line 116): empty is valid, otherwise
`re.match(r"^[a-zA-Z0-9._%+-]+@[a-zA-Z0-9.-]+\.[a-zA-Z]{2,}$", email)`.
Since `'\n'` belongs to none of the classes, the Python `$` rule reduces
to also accepting one trailing newline after a core match. -/
def validate_email (email : Str) : Bool :=
  email.isEmpty || emailCore email
  || (decide (email.getLast? = some '\n') && emailCore email.dropLast)

/-! ## SQLite `LIKE` and `ORDER BY` -/

/-- SQLite `LIKE` pattern matching, no ESCAPE clause: `%` matches any
sequence (including empty, so the rest of the pattern must match some
suffix of the text), `_` matches any single character, all other
characters compare case-insensitively (ASCII folding, which is Lean's
`Char.toLower` on the ASCII range). -/
def likeMatch : Str → Str → Bool
  | [], t => t.isEmpty
  | p :: ps, t =>
    if p = '%' then t.tails.any (fun t2 => likeMatch ps t2)
    else
      match t with
      | [] => false
      | c :: ts =>
        if p = '_' then likeMatch ps ts
        else decide (p.toLower = c.toLower) && likeMatch ps ts

/-- The handlers wrap the search term as `f"%{search}%"`. -/
def percentWrap (s : Str) : Str := '%' :: (s ++ ['%'])

/-- Binary (codepoint) comparison of strings, SQLite's default `ORDER BY`
collation for text (UTF-8 byte order agrees with codepoint order). -/
def lexLe : Str → Str → Bool
  | [], _ => true
  | _ :: _, [] => false
  | a :: as, b :: bs =>
      decide (a.toNat < b.toNat) || (decide (a.toNat = b.toNat) && lexLe as bs)

/-! ## Data model (version2 schema, `init_db`, lines 18-89)

A row of the `contacts` table.  The application only ever inserts the
stripped form strings (never SQL NULL), so the text columns are plain
strings; `created_at`/`updated_at` are real time and are not modelled. -/

structure Contact where
  id : Nat
  user_id : Nat
  name : Str
  phone : Str
  email : Str
  address : Str
  notes : Str
  category : Str
deriving DecidableEq

/-- A row of the `categories` table (version2 lines 66-74).  The schema
declares no UNIQUE constraint: `id` is the only key. -/
structure Category where
  id : Nat
  user_id : Nat
  name : Str
  color : Str
deriving DecidableEq

/-! ## version2 listing (`index`, crmos2.py lines 209-273) -/

/-- The search clause of the listing query (lines 230-233):
`(name LIKE ? OR phone LIKE ? OR email LIKE ? OR notes LIKE ?)` with
every parameter bound to `f"%{search}%"`. -/
def matchesSearch (search : Str) (c : Contact) : Bool :=
  likeMatch (percentWrap search) c.name || likeMatch (percentWrap search) c.phone
    || likeMatch (percentWrap search) c.email || likeMatch (percentWrap search) c.notes

/-- The WHERE clause of the listing query (lines 227-237):
`user_id = ?`, plus the search clause when `search` is nonempty, plus
`category = ?` when `category_filter` is nonempty. -/
def rowFilter (uid : Nat) (search category_filter : Str) (c : Contact) : Bool :=
  decide (c.user_id = uid)
    && (search.isEmpty || matchesSearch search c)
    && (category_filter.isEmpty || decide (c.category = category_filter))

/-- The WHERE clause of the count query (lines 245-255), which the source
builds a second time, textually repeating the same three predicates. -/
def countFilter (uid : Nat) (search category_filter : Str) (c : Contact) : Bool :=
  decide (c.user_id = uid)
    && (search.isEmpty || matchesSearch search c)
    && (category_filter.isEmpty || decide (c.category = category_filter))

/-- Comparison used by `ORDER BY name`. -/
def nameLe (a b : Contact) : Bool := lexLe a.name b.name

/-- `ORDER BY name` as a proposition on contact rows. -/
def nameLeR (a b : Contact) : Prop := nameLe a b = true

instance : DecidableRel nameLeR :=
  fun a b => instDecidableEqBool (nameLe a b) true

/-- The filtered result set in `ORDER BY name` order, before
`LIMIT`/`OFFSET` are applied (the model sorts by insertion; SQLite
guarantees only some name-ordered permutation). -/
def filteredSorted (db : List Contact) (uid : Nat) (search category_filter : Str) :
    List Contact :=
  List.insertionSort nameLeR (db.filter (rowFilter uid search category_filter))

/-- What the `index` handler passes to the template: the page of rows,
the total of the count query, and `total_pages`. -/
structure IndexResult where
  contacts : List Contact
  total : Nat
  total_pages : Nat
deriving DecidableEq

/-- The `index` handler (lines 209-273): `offset = (page - 1) * 10`
(`get_pagination`, line 123), rows from the filtered query with
`ORDER BY name LIMIT 10 OFFSET offset`, `total` from the count query,
and `total_pages = (total + per_page - 1) // per_page` (line 259). -/
def index (db : List Contact) (uid : Nat) (search category_filter : Str)
    (page : Nat) : IndexResult :=
  let offset := (page - 1) * 10
  let rows := ((filteredSorted db uid search category_filter).drop offset).take 10
  let total := (db.filter (countFilter uid search category_filter)).length
  { contacts := rows, total := total, total_pages := (total + 10 - 1) / 10 }

/-! ## version2 mutation handlers (crmos2.py lines 275-384) -/

/-- The `add` handler (lines 275-308): strip the six form fields, run the
three validators, and on success insert a row owned by the session user.
`none` models the validation-failure flash and redirect (no insert);
`fresh` is the id SQLite assigns to the new row. -/
def add (db : List Contact) (uid fresh : Nat)
    (nameF phoneF emailF addressF notesF categoryF : Str) : Option (List Contact) :=
  let name := pyStrip nameF
  let phone := pyStrip phoneF
  let email := pyStrip emailF
  let address := pyStrip addressF
  let notes := pyStrip notesF
  let category := pyStrip categoryF
  if !validate_name name then none
  else if !validate_phone phone then none
  else if !validate_email email then none
  else some (db ++ [⟨fresh, uid, name, phone, email, address, notes, category⟩])

/-- The lookup of the `edit` handler (lines 313-323):
`SELECT * FROM contacts WHERE id = ? AND user_id = ?`; `none` models the
"Contact not found" flash and redirect, `some` the rendered contact. -/
def edit (db : List Contact) (id uid : Nat) : Option Contact :=
  db.find? (fun c => decide (c.id = id) && decide (c.user_id = uid))

/-- The `delete` handler (lines 364-384):
`DELETE FROM contacts WHERE id=? AND user_id=?`, then `rowcount == 0`
is flashed as "Contact not found or you don't have permission", any
other count as success.  Returns the new table and the success flag. -/
def delete (db : List Contact) (id uid : Nat) : List Contact × Bool :=
  let remaining := db.filter (fun c => !(decide (c.id = id) && decide (c.user_id = uid)))
  (remaining, !decide (remaining.length = db.length))

/-! ## version2 category handlers (crmos2.py lines 402-468) -/

/-- Default category names seeded at registration (lines 162-167) and
protected in `delete_category` (line 443). -/
def defaultCategoryNames : List Str :=
  [ "General".data, "Family".data, "Work".data, "Friends".data]

/-- The `add_category` handler (lines 402-425): strip name and color,
reject an empty name, otherwise insert.  The `sqlite3.IntegrityError`
branch ("Category already exists", line 420) is unreachable because the
schema declares no unique constraint on `categories`, so the insert
always succeeds.  Returns the new table and the success flag. -/
def add_category (cats : List Category) (uid fresh : Nat)
    (nameF colorF : Str) : List Category × Bool :=
  let name := pyStrip nameF
  let color := pyStrip colorF
  if name.isEmpty then (cats, false)
  else (cats ++ [⟨fresh, uid, name, color⟩], true)

/-- Outcome flashed by `delete_category`. -/
inductive DelCatOutcome where
  | inUse
  | isDefault
  | notFound
  | success
deriving DecidableEq

/-- The `delete_category` handler (lines 427-468), in source order:
1. `in_use`: count of the session user's contacts whose `category`
   equals `(SELECT name FROM categories WHERE id = ? AND user_id = ?)`
   (an empty subquery yields NULL, which `=` matches against nothing);
   positive count fails with "in use".
2. fetch the category row; if its name is a default, fail.
3. `DELETE FROM categories WHERE id=? AND user_id=?`; `rowcount == 0`
   is flashed as "Category not found". -/
def delete_category (cats : List Category) (contacts : List Contact)
    (id uid : Nat) : List Category × DelCatOutcome :=
  let found := cats.find? (fun k => decide (k.id = id) && decide (k.user_id = uid))
  let in_use := (contacts.filter (fun c =>
    (match found with
     | some k => decide (c.category = k.name)
     | none => false) && decide (c.user_id = uid))).length
  if 0 < in_use then (cats, .inUse)
  else if (match found with
           | some k => decide (k.name ∈ defaultCategoryNames)
           | none => false) then (cats, .isDefault)
  else
    let remaining := cats.filter (fun k => !(decide (k.id = id) && decide (k.user_id = uid)))
    if remaining.length = cats.length then (cats, .notFound)
    else (remaining, .success)

/-! ## version2 CSV export (`export_contacts`, crmos2.py lines 471-495) -/

/-- Plain interpolation `f'"{field}"'`: the field is wrapped in double
quotes with no escaping of embedded quotes, commas, or newlines. -/
def quoteWrap (s : Str) : Str := '"' :: (s ++ ['"'])

/-- One data row of the export (line 484), without the trailing newline:
the six fields, each quote-wrapped, joined by commas.  (`or ""` in the
source maps SQL NULL to the empty string; the application only inserts
strings, which `or ""` leaves unchanged except `"" ↦ ""`.) -/
def csvRowBody (c : Contact) : Str :=
  quoteWrap c.name ++ ',' :: quoteWrap c.phone ++ ',' :: quoteWrap c.email
    ++ ',' :: quoteWrap c.address ++ ',' :: quoteWrap c.notes
    ++ ',' :: quoteWrap c.category

/-- The header line (line 482). -/
def csvHeader : Str := "Name,Phone,Email,Address,Notes,Category".data

/-- The whole document built by `export_contacts`: header, then one row
per contact of the session user in `ORDER BY name` order. -/
def export_contacts (db : List Contact) (uid : Nat) : Str :=
  csvHeader ++ '\n'
    :: ((List.insertionSort nameLeR (db.filter (fun c => decide (c.user_id = uid)))).map
        (fun c => csvRowBody c ++ ['\n'])).flatten

/-! ## version1 handlers (crmos.py)

version1 has accounts and a login gate, but its `contacts` table
(lines 21-31) has no `user_id` column, and none of its contact queries
mention the session user.  Handlers below carry the session user `uid`
of the request to make that visible; the bodies do not use it, exactly
as the source queries do not. -/

/-- A row of version1's `contacts` table: no owner column. -/
structure ContactV1 where
  id : Nat
  name : Str
  phone : Str
  address : Str
  notes : Str
deriving DecidableEq

/-- version1 search clause (line 135):
`name LIKE ? OR phone LIKE ? OR notes LIKE ?` (no email column). -/
def matchesSearchV1 (search : Str) (c : ContactV1) : Bool :=
  likeMatch (percentWrap search) c.name || likeMatch (percentWrap search) c.phone
    || likeMatch (percentWrap search) c.notes

/-- Comparison used by version1's `ORDER BY name`. -/
def nameLeV1 (a b : ContactV1) : Prop := lexLe a.name b.name = true

instance : DecidableRel nameLeV1 :=
  fun a b => instDecidableEqBool (lexLe a.name b.name) true

/-- version1 `index` (lines 127-143): the whole shared table, optionally
search-filtered, `ORDER BY name` — no `user_id` predicate, no paging.
`uid` is the session user, unused by the query. -/
def indexV1 (db : List ContactV1) (uid : Nat) (search : Str) : List ContactV1 :=
  let _ := uid
  if search.isEmpty then List.insertionSort nameLeV1 db
  else List.insertionSort nameLeV1 (db.filter (matchesSearchV1 search))

/-- version1 `add` (lines 145-171): strip the four fields, validate name
and phone, insert into the shared table.  The insert names no user
column; `uid` is the session user performing the request, unused. -/
def addV1 (db : List ContactV1) (uid fresh : Nat)
    (nameF phoneF addressF notesF : Str) : Option (List ContactV1) :=
  let _ := uid
  let name := pyStrip nameF
  let phone := pyStrip phoneF
  let address := pyStrip addressF
  let notes := pyStrip notesF
  if !validate_name name then none
  else if !validate_phone phone then none
  else some (db ++ [⟨fresh, name, phone, address, notes⟩])

/-- version1 `edit` lookup (line 178):
`SELECT * FROM contacts WHERE id = ?` — no ownership predicate. -/
def editV1 (db : List ContactV1) (uid id : Nat) : Option ContactV1 :=
  let _ := uid
  db.find? (fun c => decide (c.id = id))

/-- version1 `delete` (lines 207-217): `DELETE FROM contacts WHERE id=?`
with no ownership predicate and no `rowcount` check — the handler
flashes "Contact deleted successfully" unconditionally (line 214), so
the success flag is always `true`. -/
def deleteV1 (db : List ContactV1) (uid id : Nat) : List ContactV1 × Bool :=
  let _ := uid
  (db.filter (fun c => !decide (c.id = id)), true)

/-! ## Specification-side notions

These definitions follow the words of the specification (not the
source); they are what the source-derived definitions are compared
against. -/

/-- Spec-side: `needle` occurs as a case-insensitive substring of `hay`
("Search matches case-insensitive substring"). -/
def ciSubstr (needle hay : Str) : Prop :=
  ∃ l r, hay.map Char.toLower = l ++ needle.map Char.toLower ++ r

/-- Spec-side: the search predicate of §4.3 — case-insensitive substring
of name, phone, email, or notes (logical OR over the four fields). -/
def specSearchMatches (search : Str) (c : Contact) : Prop :=
  ciSubstr search c.name ∨ ciSubstr search c.phone
    ∨ ciSubstr search c.email ∨ ciSubstr search c.notes

/-- Spec-side: standard CSV parsing of one quoted field, after the
opening quote. `""` is an escaped quote; a single `"` closes the field.
Returns the field content and the rest of the line. -/
def scanQuoted : Str → Option (Str × Str)
  | [] => none
  | a :: rest =>
    if a = '"' then
      match rest with
      | [] => some ([], [])
      | b :: rest2 =>
        if b = '"' then (scanQuoted rest2).map (fun fr => ('"' :: fr.1, fr.2))
        else some ([], rest)
    else (scanQuoted rest).map (fun fr => (a :: fr.1, fr.2))

/-- Spec-side: parse `n` comma-separated quoted fields making up a whole
CSV line. -/
def parseQuotedFields : Nat → Str → Option (List Str)
  | 0, _ => none
  | 1, s =>
    match s with
    | [] => none
    | a :: rest =>
      if a = '"' then
        match scanQuoted rest with
        | some (f, r) => if r.isEmpty then some [f] else none
        | none => none
      else none
  | n + 2, s =>
    match s with
    | [] => none
    | a :: rest =>
      if a = '"' then
        match scanQuoted rest with
        | some (f, r) =>
          match r with
          | [] => none
          | comma :: r2 =>
            if comma = ',' then (parseQuotedFields (n + 1) r2).map (fun fs => f :: fs)
            else none
        | none => none
      else none

/-- Spec-side: parse one exported contact row (six fields). -/
def parseCsvRow (s : Str) : Option (List Str) :=
  parseQuotedFields 6 s

/-! ## Helper lemmas: the ordering is total and transitive -/

lemma lexLe_trans : ∀ a b c : Str, lexLe a b = true → lexLe b c = true → lexLe a c = true := by
  intro a
  induction a with
  | nil => intro b c _ _; simp [lexLe]
  | cons x xs ih =>
    intro b c hab hbc
    cases b with
    | nil => simp [lexLe] at hab
    | cons y ys =>
      cases c with
      | nil => simp [lexLe] at hbc
      | cons z zs =>
        simp only [lexLe, Bool.or_eq_true, Bool.and_eq_true, decide_eq_true_eq] at hab hbc ⊢
        rcases hab with h1 | ⟨h1, h1r⟩ <;> rcases hbc with h2 | ⟨h2, h2r⟩
        · exact Or.inl (by omega)
        · exact Or.inl (by omega)
        · exact Or.inl (by omega)
        · exact Or.inr ⟨by omega, ih ys zs h1r h2r⟩

lemma lexLe_total : ∀ a b : Str, lexLe a b = true ∨ lexLe b a = true := by
  intro a
  induction a with
  | nil => intro b; exact Or.inl (by simp [lexLe])
  | cons x xs ih =>
    intro b
    cases b with
    | nil => exact Or.inr (by simp [lexLe])
    | cons y ys =>
      simp only [lexLe, Bool.or_eq_true, Bool.and_eq_true, decide_eq_true_eq]
      rcases Nat.lt_trichotomy x.toNat y.toNat with h | h | h
      · exact Or.inl (Or.inl h)
      · rcases ih ys with h' | h'
        · exact Or.inl (Or.inr ⟨h, h'⟩)
        · exact Or.inr (Or.inr ⟨h.symm, h'⟩)
      · exact Or.inr (Or.inl h)

lemma nameLe_trans : ∀ a b c : Contact, nameLe a b = true → nameLe b c = true →
    nameLe a c = true := by
  intro a b c hab hbc
  exact lexLe_trans a.name b.name c.name hab hbc

lemma nameLe_total : ∀ a b : Contact, (nameLe a b || nameLe b a) = true := by
  intro a b
  rcases lexLe_total a.name b.name with h | h <;> simp [nameLe, h]

instance : IsTrans Contact nameLeR :=
  ⟨fun a b c hab hbc => lexLe_trans a.name b.name c.name hab hbc⟩

instance : IsTotal Contact nameLeR :=
  ⟨fun a b => lexLe_total a.name b.name⟩

/-! ## Helper lemmas: `LIKE '%s%'` is case-insensitive substring search
when `s` contains no wildcard -/

lemma likeMatch_lit_nil {a : Char} (as : Str) (ha : a ≠ '%') :
    likeMatch (a :: as) [] = false := by
  simp [likeMatch, ha]

lemma likeMatch_lit_cons {a : Char} (as : Str) (c : Char) (ts : Str)
    (ha1 : a ≠ '%') (ha2 : a ≠ '_') :
    likeMatch (a :: as) (c :: ts) = (decide (a.toLower = c.toLower) && likeMatch as ts) := by
  simp [likeMatch, ha1, ha2]

lemma likeMatch_pct (p : Str) (t : Str) :
    likeMatch ('%' :: p) t = true ↔ ∃ n, likeMatch p (t.drop n) = true := by
  have hunf : likeMatch ('%' :: p) t = t.tails.any (fun t2 => likeMatch p t2) := by
    simp [likeMatch]
  rw [hunf, List.any_eq_true]
  constructor
  · rintro ⟨x, hx, hmx⟩
    obtain ⟨s, hs⟩ := (List.mem_tails x t).mp hx
    refine ⟨s.length, ?_⟩
    rw [← hs, List.drop_left]
    exact hmx
  · rintro ⟨n, hn⟩
    exact ⟨t.drop n, (List.mem_tails _ t).mpr (List.drop_suffix n t), hn⟩

lemma likeMatch_tailpct : ∀ s t : Str, (∀ ch ∈ s, ch ≠ '%' ∧ ch ≠ '_') →
    (likeMatch (s ++ ['%']) t = true ↔
      ∃ r, t.map Char.toLower = s.map Char.toLower ++ r) := by
  intro s
  induction s with
  | nil =>
    intro t _
    constructor
    · intro _; exact ⟨t.map Char.toLower, by simp⟩
    · intro _
      rw [show ([] : Str) ++ ['%'] = '%' :: [] from rfl, likeMatch_pct]
      exact ⟨t.length, by simp [likeMatch]⟩
  | cons a as ih =>
    intro t hwf
    have ha := hwf a (List.mem_cons_self a as)
    cases t with
    | nil =>
      rw [List.cons_append, likeMatch_lit_nil _ ha.1]
      simp
    | cons c ts =>
      have hsub : ∀ ch ∈ as, ch ≠ '%' ∧ ch ≠ '_' :=
        fun ch hch => hwf ch (List.mem_cons_of_mem a hch)
      rw [List.cons_append, likeMatch_lit_cons _ _ _ ha.1 ha.2]
      simp only [Bool.and_eq_true, decide_eq_true_eq, List.map_cons]
      rw [ih ts hsub]
      constructor
      · rintro ⟨h1, r, hr⟩
        exact ⟨r, by rw [hr, h1, List.cons_append]⟩
      · rintro ⟨r, hr⟩
        rw [List.cons_append] at hr
        injection hr with h1 h2
        exact ⟨h1.symm, r, h2⟩

/-- For a search term without `%` or `_`, the query's `LIKE '%s%'` test
is exactly case-insensitive substring occurrence. -/
lemma likeMatch_wrap_iff_ciSubstr (s t : Str) (hwf : ∀ ch ∈ s, ch ≠ '%' ∧ ch ≠ '_') :
    likeMatch (percentWrap s) t = true ↔ ciSubstr s t := by
  rw [percentWrap, likeMatch_pct]
  constructor
  · rintro ⟨n, hn⟩
    obtain ⟨r, hr⟩ := (likeMatch_tailpct s (t.drop n) hwf).mp hn
    refine ⟨(t.take n).map Char.toLower, r, ?_⟩
    calc t.map Char.toLower
        = (t.take n ++ t.drop n).map Char.toLower := by rw [List.take_append_drop]
      _ = (t.take n).map Char.toLower ++ (t.drop n).map Char.toLower := by
          rw [List.map_append]
      _ = (t.take n).map Char.toLower ++ (s.map Char.toLower ++ r) := by rw [hr]
      _ = (t.take n).map Char.toLower ++ s.map Char.toLower ++ r := by
          rw [List.append_assoc]
  · rintro ⟨l, r, hl⟩
    refine ⟨l.length, (likeMatch_tailpct s (t.drop l.length) hwf).mpr ⟨r, ?_⟩⟩
    calc (t.drop l.length).map Char.toLower
        = (t.map Char.toLower).drop l.length := by rw [List.map_drop]
      _ = (l ++ (s.map Char.toLower ++ r)).drop l.length := by
          rw [← List.append_assoc, ← hl]
      _ = s.map Char.toLower ++ r := List.drop_left l _

/-- The search clause of the listing matches exactly the specification's
"case-insensitive substring of name, phone, email or notes" whenever the
search term contains no `LIKE` wildcard. -/
lemma matchesSearch_iff_spec (s : Str) (c : Contact)
    (hwf : ∀ ch ∈ s, ch ≠ '%' ∧ ch ≠ '_') :
    matchesSearch s c = true ↔ specSearchMatches s c := by
  simp only [matchesSearch, specSearchMatches, Bool.or_eq_true,
    likeMatch_wrap_iff_ciSubstr _ _ hwf, or_assoc]

/-! ## Helper lemmas: membership in listing results -/

lemma countFilter_eq_rowFilter (uid : Nat) (search category_filter : Str) (c : Contact) :
    countFilter uid search category_filter c = rowFilter uid search category_filter c := rfl

lemma filteredSorted_perm (db : List Contact) (uid : Nat) (search category_filter : Str) :
    (filteredSorted db uid search category_filter).Perm
      (db.filter (rowFilter uid search category_filter)) :=
  List.perm_insertionSort nameLeR _

lemma filteredSorted_sorted (db : List Contact) (uid : Nat) (search category_filter : Str) :
    (filteredSorted db uid search category_filter).Pairwise nameLeR :=
  List.sorted_insertionSort nameLeR _

lemma mem_filteredSorted (db : List Contact) (uid : Nat) (search category_filter : Str)
    (c : Contact) :
    c ∈ filteredSorted db uid search category_filter ↔
      c ∈ db ∧ rowFilter uid search category_filter c = true := by
  rw [(filteredSorted_perm db uid search category_filter).mem_iff, List.mem_filter]

lemma mem_index_contacts (db : List Contact) (uid : Nat) (search category_filter : Str)
    (page : Nat) (c : Contact)
    (hc : c ∈ (index db uid search category_filter page).contacts) :
    c ∈ db ∧ rowFilter uid search category_filter c = true := by
  rw [← mem_filteredSorted]
  have hsub : (index db uid search category_filter page).contacts.Sublist
      (filteredSorted db uid search category_filter) :=
    (List.take_sublist _ _).trans (List.drop_sublist _ _)
  exact hsub.mem hc

/-! ## Helper lemma: pages of size 10 cover the list exactly once -/

lemma flatten_chunks10 {α : Type} : ∀ (n : Nat) (l : List α), l.length ≤ n →
    ((List.range ((l.length + 9) / 10)).map (fun i => (l.drop (i * 10)).take 10)).flatten
      = l := by
  intro n
  induction n with
  | zero =>
    intro l hl
    have : l = [] := List.length_eq_zero.mp (Nat.le_zero.mp hl)
    subst this
    simp
  | succ n ih =>
    intro l hl
    cases l with
    | nil => simp
    | cons a l' =>
      have hcount : ((a :: l').length + 9) / 10
          = (((a :: l').drop 10).length + 9) / 10 + 1 := by
        rw [List.length_drop, List.length_cons]
        omega
      rw [hcount, List.range_succ_eq_map, List.map_cons, List.map_map, List.flatten_cons]
      have hrest : ∀ i : Nat,
          ((a :: l').drop (Nat.succ i * 10)).take 10
            = (((a :: l').drop 10).drop (i * 10)).take 10 := by
        intro i
        rw [List.drop_drop]
        have harg : 10 + i * 10 = Nat.succ i * 10 := by omega
        rw [harg]
      have hih : ((List.range ((((a :: l').drop 10).length + 9) / 10)).map
          (fun i => (((a :: l').drop 10).drop (i * 10)).take 10)).flatten
            = (a :: l').drop 10 := by
        apply ih
        rw [List.length_drop, List.length_cons]
        rw [List.length_cons] at hl
        omega
      calc ((a :: l').drop (0 * 10)).take 10
            ++ ((List.range ((((a :: l').drop 10).length + 9) / 10)).map
                ((fun i => ((a :: l').drop (i * 10)).take 10) ∘ Nat.succ)).flatten
          = (a :: l').take 10
            ++ ((List.range ((((a :: l').drop 10).length + 9) / 10)).map
                (fun i => (((a :: l').drop 10).drop (i * 10)).take 10)).flatten := by
            rw [Nat.zero_mul, List.drop_zero]
            congr 1
            apply congrArg
            apply List.map_congr_left
            intro i _
            exact hrest i
        _ = (a :: l').take 10 ++ (a :: l').drop 10 := by rw [hih]
        _ = a :: l' := List.take_append_drop _ _

/-! ## Helper lemmas: categories -/

lemma find?_category (cats : List Category) (id uid : Nat) (k : Category)
    (hnd : cats.Pairwise (fun a b => a.id ≠ b.id))
    (hk : k ∈ cats) (hid : k.id = id) (huid : k.user_id = uid) :
    cats.find? (fun j => decide (j.id = id) && decide (j.user_id = uid)) = some k := by
  induction cats with
  | nil => cases hk
  | cons a rest ih =>
    rcases List.mem_cons.mp hk with rfl | hmem
    · rw [List.find?_cons_of_pos]
      simp [hid, huid]
    · have hane : a.id ≠ k.id := (List.pairwise_cons.mp hnd).1 k hmem
      rw [List.find?_cons_of_neg]
      · exact ih (List.pairwise_cons.mp hnd).2 hmem
      · simp only [Bool.and_eq_true, decide_eq_true_eq, not_and]
        intro haid
        exact (hane (haid.trans hid.symm)).elim

lemma filter_length_lt_of_mem_not {α : Type} (l : List α) (p : α → Bool) (x : α)
    (hx : x ∈ l) (hpx : p x = false) : (l.filter p).length < l.length := by
  induction l with
  | nil => cases hx
  | cons a rest ih =>
    rcases List.mem_cons.mp hx with rfl | hmem
    · simp only [List.filter_cons, hpx, List.length_cons]
      exact Nat.lt_succ_of_le (List.length_filter_le _ _)
    · simp only [List.filter_cons, List.length_cons]
      cases hpa : p a
      · exact Nat.lt_succ_of_lt (ih hmem)
      · simpa using Nat.succ_lt_succ (ih hmem)

/-! ## Helper lemmas: regex characterizations and substring facts -/

lemma reFullMatchClass_iff (cls : Char → Bool) (lo hi : Nat) (p : Str) :
    reFullMatchClass cls lo hi p = true ↔
      ((lo ≤ p.length ∧ p.length ≤ hi ∧ ∀ c ∈ p, cls c = true)
        ∨ (p.getLast? = some '\n' ∧ lo + 1 ≤ p.length ∧ p.length ≤ hi + 1
            ∧ ∀ c ∈ p.dropLast, cls c = true)) := by
  unfold reFullMatchClass
  simp only [Bool.or_eq_true, Bool.and_eq_true, decide_eq_true_eq, List.all_eq_true]
  constructor
  · rintro (⟨⟨h1, h2⟩, h3⟩ | ⟨⟨⟨h0, ha⟩, hb⟩, h2⟩)
    · exact Or.inl ⟨h1, h2, h3⟩
    · have hpos : 0 < p.length := by
        cases p with
        | nil => simp at h0
        | cons a t => simp
      exact Or.inr ⟨h0, by omega, by omega, h2⟩
  · rintro (⟨h1, h2, h3⟩ | ⟨h0, h1, h2, h3⟩)
    · exact Or.inl ⟨⟨h1, h2⟩, h3⟩
    · exact Or.inr ⟨⟨⟨h0, by omega⟩, by omega⟩, h3⟩

lemma ciSubstr_length_le {needle hay : Str} (h : ciSubstr needle hay) :
    needle.length ≤ hay.length := by
  obtain ⟨l, r, hl⟩ := h
  have hlen := congrArg List.length hl
  simp only [List.length_append, List.length_map] at hlen
  omega

lemma ciSubstr_eq_of_length_eq {needle hay : Str} (h : ciSubstr needle hay)
    (hlen : needle.length = hay.length) :
    hay.map Char.toLower = needle.map Char.toLower := by
  obtain ⟨l, r, hl⟩ := h
  have hlen2 := congrArg List.length hl
  simp only [List.length_append, List.length_map] at hlen2
  have hl0 : l = [] := List.length_eq_zero.mp (by omega)
  have hr0 : r = [] := List.length_eq_zero.mp (by omega)
  subst hl0
  subst hr0
  simpa using hl

/-! ## Helper lemmas: CSV parsing of escape-free rows -/

lemma scanQuoted_clean : ∀ (s rest : Str), (∀ ch ∈ s, ch ≠ '"') →
    rest.head? ≠ some '"' →
    scanQuoted (s ++ '"' :: rest) = some (s, rest) := by
  intro s
  induction s with
  | nil =>
    intro rest _ hrest
    cases rest with
    | nil => decide
    | cons b r2 =>
      have hb : b ≠ '"' := by
        intro h
        exact hrest (by simp [h])
      rw [List.nil_append, scanQuoted.eq_def]
      simp [hb]
  | cons a s' ih =>
    intro rest hs hrest
    have ha : a ≠ '"' := hs a (List.mem_cons_self a s')
    have hs' : ∀ ch ∈ s', ch ≠ '"' := fun ch h => hs ch (List.mem_cons_of_mem a h)
    rw [List.cons_append, scanQuoted.eq_def]
    simp [ha, ih rest hs' hrest]

lemma parseQuotedFields_step (n : Nat) (f rest : Str) (hf : ∀ ch ∈ f, ch ≠ '"') :
    parseQuotedFields (n + 2) (quoteWrap f ++ ',' :: rest)
      = (parseQuotedFields (n + 1) rest).map (fun fs => f :: fs) := by
  have hqw : quoteWrap f ++ ',' :: rest = '"' :: (f ++ '"' :: (',' :: rest)) := by
    simp [quoteWrap]
  rw [hqw]
  have hscan := scanQuoted_clean f (',' :: rest) hf (by simp)
  simp [parseQuotedFields, hscan]

lemma parseQuotedFields_one (f : Str) (hf : ∀ ch ∈ f, ch ≠ '"') :
    parseQuotedFields 1 (quoteWrap f) = some [f] := by
  have hqw : quoteWrap f = '"' :: (f ++ '"' :: []) := rfl
  rw [hqw]
  have hscan := scanQuoted_clean f [] hf (by simp)
  simp [parseQuotedFields, hscan]

/-! ## Concrete fixtures used by scenario conjuncts and counterexamples -/

/-- The contact name of the two-user scenario. -/
def samName : Str := "Sam".data

/-- The scenario contact owned by user 1 in version2. -/
def samContactA : Contact := ⟨1, 1, samName, "111-1111".data, [], [], [], "General".data⟩

/-- The scenario contact owned by user 2 in version2. -/
def samContactB : Contact := ⟨2, 2, samName, "222-2222".data, [], [], [], "General".data⟩

/-- version2 table after each user added their "Sam". -/
def samDb : List Contact := [samContactA, samContactB]

/-- The row version1's `add` inserts for user 1's "Sam". -/
def samV1A : ContactV1 := ⟨1, samName, "111-1111".data, [], []⟩

/-- The row version1's `add` inserts for user 2's "Sam". -/
def samV1B : ContactV1 := ⟨2, samName, "222-2222".data, [], []⟩

/-- A version1 row inserted during user 2's session. -/
def bobV1 : ContactV1 := ⟨7, "Bob".data, "222-3333".data, [], []⟩

/-- The four seeded categories of user 1 (register, lines 162-167). -/
def defaultCats : List Category :=
  [⟨1, 1, "General".data, "#3B82F6".data⟩, ⟨2, 1, "Family".data, "#EF4444".data⟩,
   ⟨3, 1, "Work".data, "#10B981".data⟩, ⟨4, 1, "Friends".data, "#F59E0B".data⟩]

/-- A non-default category of user 1. -/
def customCat : Category := ⟨5, 1, "Custom".data, "#3B82F6".data⟩

/-- User 1's categories with one custom entry. -/
def catsWithCustom : List Category := defaultCats ++ [customCat]

/-- A contact whose name contains a double quote. -/
def quoteContact : Contact := ⟨4, 1, ['a', '"', 'b'], "123-4567".data, [], [], [], "General".data⟩

/-- A contact named "abc", all other text fields empty. -/
def abcContact : Contact := ⟨3, 1, "abc".data, [], [], [], [], "General".data⟩

/-- A search term containing the `LIKE` wildcard underscore. -/
def underscoreTerm : Str := "a_c".data

/-- A seven-character all-digit phone string. -/
def sevenDigits : Str := "1234567".data

/-- The spec's accepted example phone. -/
def plusPhone : Str := "+1 (555) 123-4567".data

/-- The spec's rejected example phone. -/
def twelve : Str := "12".data

/-- Twenty digits followed by a newline: length 21. -/
def twentyDigitsNl : Str := "11111111111111111111".data ++ ['\n']

/-- The contact inserted by the round-trip witness. -/
def boDb : List Contact :=
  [⟨1, 1, "Bo".data, "+1 (555) 123-4567".data, "a@b.co".data, [], [], "General".data⟩]

/-! ## Claim theorems -/

/-- Claim C1 (counterexample): the claim is false for version1's `index`,
which the claim cites (crmos.py lines 127-143).  User 1 adds "Sam" in
their session, user 2 adds "Sam" in theirs; version1's `add` stores no
owner and its `index` filters by no owner, so user 1's listing (session
uid 1) contains the row user 2 created — the listing is not restricted
to contacts whose owner is the session user. -/
theorem indexV1_lists_other_users_sam :
    addV1 [] 1 1 samName "111-1111".data [] [] = some [samV1A]
    ∧ addV1 [samV1A] 2 2 samName "222-2222".data [] [] = some [samV1A, samV1B]
    ∧ indexV1 [samV1A, samV1B] 1 samName = [samV1A, samV1B]
    ∧ samV1B ∈ indexV1 [samV1A, samV1B] 1 samName :=
  ⟨by decide, by decide, by decide, by decide⟩

/-- Claim C1 (amended): version2's `index` returns only contacts whose
`user_id` equals the session user, for every search, category filter
and page; in the two-"Sam" scenario each user sees exactly their own
row.  version1's `index` has no owner scoping (see the counterexample). -/
theorem index_only_own_contacts :
    (∀ (db : List Contact) (uid : Nat) (search category_filter : Str) (page : Nat),
        ((index db uid search category_filter page).contacts.all
          (fun c => decide (c.user_id = uid))) = true)
    ∧ (index samDb 1 samName [] 1).contacts = [samContactA]
    ∧ (index samDb 2 samName [] 1).contacts = [samContactB]
    ∧ (index samDb 1 [] [] 1).contacts = [samContactA]
    ∧ (index samDb 2 [] [] 1).contacts = [samContactB] := by
  refine ⟨?_, by decide, by decide, by decide, by decide⟩
  intro db uid search category_filter page
  rw [List.all_eq_true]
  intro c hc
  have hrf := (mem_index_contacts db uid search category_filter page c hc).2
  simp only [rowFilter, Bool.and_eq_true, decide_eq_true_eq] at hrf
  exact decide_eq_true hrf.1.1

/-- Claim C2 (counterexample): the claim is false for version1's `edit`,
which the claim cites (crmos.py lines 173-181).  The contact with id 7
is created in user 2's session; user 1's `edit` of id 7 looks the row up
by id alone and returns its data instead of a not-found condition. -/
theorem editV1_returns_other_users_contact :
    addV1 [] 2 7 "Bob".data "222-3333".data [] [] = some [bobV1]
    ∧ editV1 [bobV1] 1 7 = some bobV1 :=
  ⟨by decide, by decide⟩

/-- Claim C2 (amended): version2's `edit` looks the contact up scoped to
`(id, user_id)`: when no row has that id with that owner — absent id or
a different owner — it returns the not-found outcome and never a
contact; any contact it does return has that id and owner.  version1's
`edit` is unscoped (see the counterexample). -/
theorem edit_scoped_to_owner :
    ∀ (db : List Contact) (id uid : Nat),
      ((∀ c ∈ db, ¬(c.id = id ∧ c.user_id = uid)) → edit db id uid = none)
      ∧ (∀ c : Contact, edit db id uid = some c →
          c ∈ db ∧ c.id = id ∧ c.user_id = uid) := by
  intro db id uid
  constructor
  · intro h
    rw [edit, List.find?_eq_none]
    intro x hx
    simp only [Bool.and_eq_true, decide_eq_true_eq, not_and]
    intro h1 h2
    exact h x hx ⟨h1, h2⟩
  · intro c hc
    rw [edit] at hc
    have hmem := List.mem_of_find?_eq_some hc
    have hp := List.find?_some hc
    simp only [Bool.and_eq_true, decide_eq_true_eq] at hp
    exact ⟨hmem, hp.1, hp.2⟩

/-- Witness for the amended C2 theorem: user 2 gets not-found for the
contact id 1 owned by user 1. -/
theorem edit_scoped_to_owner_w : edit samDb 1 2 = none :=
  (edit_scoped_to_owner samDb 1 2).1 (by decide)

/-- Claim C3 (counterexample): the claim is false for version1's
`delete`, which the claim cites (crmos.py lines 207-217).  Deleting a
nonexistent id flashes success (the handler never checks `rowcount`),
and user 1 "successfully" deletes the contact created in user 2's
session because the DELETE has no owner predicate. -/
theorem deleteV1_silent_success :
    deleteV1 [] 1 42 = ([], true)
    ∧ deleteV1 [bobV1] 1 7 = ([], true) :=
  ⟨by decide, by decide⟩

/-- Claim C3 (amended): version2's `delete` removes exactly the rows
with the given id owned by the session user; when no such row exists the
table is unchanged and the not-found outcome is reported, and repeating
any delete reports not-found with no further change.  version1's
`delete` always reports success (see the counterexample). -/
theorem delete_scoped_idempotent :
    ∀ (db : List Contact) (id uid : Nat),
      ((∀ c ∈ db, ¬(c.id = id ∧ c.user_id = uid)) → delete db id uid = (db, false))
      ∧ delete (delete db id uid).1 id uid = ((delete db id uid).1, false)
      ∧ (∀ c : Contact, c ∈ (delete db id uid).1 ↔
          c ∈ db ∧ ¬(c.id = id ∧ c.user_id = uid)) := by
  intro db id uid
  have hpred : ∀ c : Contact,
      (!(decide (c.id = id) && decide (c.user_id = uid))) = true ↔
        ¬(c.id = id ∧ c.user_id = uid) := by
    intro c
    simp
    tauto
  refine ⟨?_, ?_, ?_⟩
  · intro h
    have hfe : db.filter (fun c => !(decide (c.id = id) && decide (c.user_id = uid))) = db :=
      List.filter_eq_self.mpr (fun c hc => (hpred c).mpr (h c hc))
    simp only [delete, hfe]
    simp
  · have hall : ∀ c ∈ (delete db id uid).1,
        (!(decide (c.id = id) && decide (c.user_id = uid))) = true := by
      intro c hc
      simp only [delete] at hc
      exact (List.mem_filter.mp hc).2
    have hfe : (delete db id uid).1.filter
        (fun c => !(decide (c.id = id) && decide (c.user_id = uid))) = (delete db id uid).1 :=
      List.filter_eq_self.mpr hall
    simp only [delete] at hfe
    simp only [delete, hfe]
    simp
  · intro c
    simp only [delete, List.mem_filter]
    rw [hpred c]

/-- Witness for the amended C3 theorem: deleting id 5, which no contact
of user 1 has, leaves the table unchanged and reports not-found. -/
theorem delete_scoped_idempotent_w : delete samDb 5 1 = (samDb, false) :=
  (delete_scoped_idempotent samDb 5 1).1 (by decide)

/-- Claim C4: evaluation of `add_category` at the failing input.  The
`categories` schema (crmos2.py lines 66-74) declares no unique
constraint, so when user 1 already owns "Work" the handler inserts a
second "Work" row and flashes success; the `IntegrityError` branch
("Category already exists", line 420) is dead code. -/
theorem add_category_inserts_duplicate :
    add_category defaultCats 1 5 "Work".data "#10B981".data
      = (defaultCats ++ [(⟨5, 1, "Work".data, "#10B981".data⟩ : Category)], true)
    ∧ ((defaultCats ++ [(⟨5, 1, "Work".data, "#10B981".data⟩ : Category)]).filter
        (fun k => decide (k.name = "Work".data) && decide (k.user_id = 1))).length = 2 :=
  ⟨by decide, by decide⟩

/-- Claim C6 (counterexample): the claim is false for barebone's
`validate_phone`, which the claim cites (barebone/crmos.py lines 52-58):
its regex demands length 10 to 20, so the all-digit string "1234567" of
length 7 — accepted by the claim's 7-to-20 characterization and by
version2 — is rejected. -/
theorem validate_phone_barebone_rejects_seven :
    validate_phone_barebone sevenDigits = false
    ∧ sevenDigits.length = 7
    ∧ sevenDigits.all Char.isDigit = true
    ∧ validate_phone sevenDigits = true :=
  ⟨by decide, by decide, by decide, by decide⟩

/-- Claim C6 (amended): version2's `validate_phone` accepts the empty
string, any string of 7 to 20 characters drawn from digits, whitespace,
`-`, `+`, `(`, `)`, and — by Python's `$` semantics — such a string
followed by one final newline (hence up to length 21); barebone's
`validate_phone` is the same with 10 to 20 in place of 7 to 20.  The
spec's examples: "12" is rejected and "+1 (555) 123-4567" accepted. -/
theorem validate_phone_characterized :
    (∀ p : Str, validate_phone p = true ↔
        (p = []
          ∨ (7 ≤ p.length ∧ p.length ≤ 20 ∧ ∀ c ∈ p, phoneClass c = true)
          ∨ (p.getLast? = some '\n' ∧ 8 ≤ p.length ∧ p.length ≤ 21
              ∧ ∀ c ∈ p.dropLast, phoneClass c = true)))
    ∧ (∀ p : Str, validate_phone_barebone p = true ↔
        (p = []
          ∨ (10 ≤ p.length ∧ p.length ≤ 20 ∧ ∀ c ∈ p, phoneClass c = true)
          ∨ (p.getLast? = some '\n' ∧ 11 ≤ p.length ∧ p.length ≤ 21
              ∧ ∀ c ∈ p.dropLast, phoneClass c = true)))
    ∧ validate_phone twelve = false
    ∧ validate_phone plusPhone = true
    ∧ validate_phone twentyDigitsNl = true
    ∧ twentyDigitsNl.length = 21 := by
  refine ⟨?_, ?_, by decide, by decide, by decide, by decide⟩
  · intro p
    rw [validate_phone, Bool.or_eq_true, reFullMatchClass_iff]
    simp [List.isEmpty_iff]
  · intro p
    rw [validate_phone_barebone, Bool.or_eq_true, reFullMatchClass_iff]
    simp [List.isEmpty_iff]

/-- Claim C5: behavior of `delete_category` for a category id owned by
the session user, under the schema's primary-key property (all category
ids distinct): with at least one contact of the user carrying the
category's name the delete fails "in use" and the table is unchanged;
otherwise a default-named category fails "is default"; otherwise
exactly the rows with that id and owner are removed with success.
Moreover, across any input state, a default-named category row is never
removed by `delete_category`. -/
theorem delete_category_rules :
    ∀ (cats : List Category) (contacts : List Contact) (id uid : Nat),
      cats.Pairwise (fun a b => a.id ≠ b.id) →
      ((∀ k : Category, k ∈ cats → k.id = id → k.user_id = uid →
          (((∃ c ∈ contacts, c.user_id = uid ∧ c.category = k.name) →
              delete_category cats contacts id uid = (cats, .inUse))
            ∧ ((¬∃ c ∈ contacts, c.user_id = uid ∧ c.category = k.name) →
                k.name ∈ defaultCategoryNames →
                delete_category cats contacts id uid = (cats, .isDefault))
            ∧ ((¬∃ c ∈ contacts, c.user_id = uid ∧ c.category = k.name) →
                k.name ∉ defaultCategoryNames →
                delete_category cats contacts id uid
                  = (cats.filter
                      (fun j => !(decide (j.id = id) && decide (j.user_id = uid))),
                     .success))))
        ∧ (∀ k ∈ cats, k.name ∈ defaultCategoryNames →
            k ∈ (delete_category cats contacts id uid).1)) := by
  intro cats contacts id uid hnd
  constructor
  · intro k hk hid huid
    have hfind := find?_category cats id uid k hnd hk hid huid
    refine ⟨?_, ?_, ?_⟩
    · rintro ⟨c, hc, hcu, hcc⟩
      have hmemf : c ∈ contacts.filter
          (fun c => decide (c.category = k.name) && decide (c.user_id = uid)) :=
        List.mem_filter.mpr ⟨hc, by simp [hcc, hcu]⟩
      have hpos : 0 < (contacts.filter
          (fun c => decide (c.category = k.name) && decide (c.user_id = uid))).length :=
        List.length_pos.mpr (List.ne_nil_of_mem hmemf)
      simp only [delete_category, hfind]
      rw [if_pos hpos]
    · intro hnone hdef
      have hc0 : ¬ 0 < (contacts.filter
          (fun c => decide (c.category = k.name) && decide (c.user_id = uid))).length := by
        intro hpos
        obtain ⟨c, hcmem⟩ := List.exists_mem_of_length_pos hpos
        have hcp := List.mem_filter.mp hcmem
        simp only [Bool.and_eq_true, decide_eq_true_eq] at hcp
        exact hnone ⟨c, hcp.1, hcp.2.2, hcp.2.1⟩
      simp only [delete_category, hfind]
      rw [if_neg hc0, if_pos (decide_eq_true hdef)]
    · intro hnone hndef
      have hc0 : ¬ 0 < (contacts.filter
          (fun c => decide (c.category = k.name) && decide (c.user_id = uid))).length := by
        intro hpos
        obtain ⟨c, hcmem⟩ := List.exists_mem_of_length_pos hpos
        have hcp := List.mem_filter.mp hcmem
        simp only [Bool.and_eq_true, decide_eq_true_eq] at hcp
        exact hnone ⟨c, hcp.1, hcp.2.2, hcp.2.1⟩
      have hpk : (!(decide (k.id = id) && decide (k.user_id = uid))) = false := by
        simp [hid, huid]
      have hlt := filter_length_lt_of_mem_not cats
        (fun j => !(decide (j.id = id) && decide (j.user_id = uid))) k hk hpk
      simp only [delete_category, hfind]
      rw [if_neg hc0, if_neg (by simpa using hndef), if_neg (Nat.ne_of_lt hlt)]
  · intro k hk hdef
    by_cases hmatch : k.id = id ∧ k.user_id = uid
    · have hfind := find?_category cats id uid k hnd hk hmatch.1 hmatch.2
      simp only [delete_category, hfind]
      by_cases hc1 : 0 < (contacts.filter
          (fun c => decide (c.category = k.name) && decide (c.user_id = uid))).length
      · rw [if_pos hc1]
        exact hk
      · rw [if_neg hc1, if_pos (decide_eq_true hdef)]
        exact hk
    · have hpk : (!(decide (k.id = id) && decide (k.user_id = uid))) = true := by
        simp
        tauto
      simp only [delete_category]
      split_ifs with h1 h2 h3
      · exact hk
      · exact hk
      · exact hk
      · exact List.mem_filter.mpr ⟨hk, hpk⟩

/-- Witness for the C5 theorem: user 1's unused non-default category
"Custom" (id 5) is deleted with success. -/
theorem delete_category_rules_w :
    delete_category catsWithCustom [] 5 1
      = (catsWithCustom.filter (fun j => !(decide (j.id = 5) && decide (j.user_id = 1))),
         .success) :=
  ((delete_category_rules catsWithCustom [] 5 1 (by decide)).1 customCat
    (by decide) rfl rfl).2.2 (by simp) (by decide)

/-- Claim C7 (counterexample): the claim's "matches exactly when the
search occurs as a case-insensitive substring" is false because the
handler passes the raw search term into `LIKE`: the search "a_c"
matches the contact named "abc" through the `_` wildcard although
"a_c" is not a substring of any of the contact's four fields. -/
theorem like_wildcard_beats_substring :
    matchesSearch underscoreTerm abcContact = true
    ∧ ¬ specSearchMatches underscoreTerm abcContact := by
  refine ⟨by decide, ?_⟩
  rintro (h | h | h | h)
  · exact absurd (ciSubstr_eq_of_length_eq h (by decide)) (by decide)
  · exact absurd (ciSubstr_length_le h) (by decide)
  · exact absurd (ciSubstr_length_le h) (by decide)
  · exact absurd (ciSubstr_length_le h) (by decide)

/-- Claim C7 (amended): for search terms containing no `LIKE` wildcard
(`%` or `_`), a contact passes the listing's WHERE clause exactly when
its owner is the session user, the search term (when nonempty) occurs
as a case-insensitive substring of the name, phone, email or notes
(logical OR), and the category filter (when nonempty) equals the stored
category exactly (logical AND of the three parts).  Search terms with
wildcards are interpreted as `LIKE` patterns instead (see the
counterexample). -/
theorem listing_filter_characterized :
    ∀ (uid : Nat) (search category_filter : Str) (c : Contact),
      (∀ ch ∈ search, ch ≠ '%' ∧ ch ≠ '_') →
      (rowFilter uid search category_filter c = true ↔
        (c.user_id = uid
          ∧ (search = [] ∨ specSearchMatches search c)
          ∧ (category_filter = [] ∨ c.category = category_filter))) := by
  intro uid search category_filter c hwf
  rw [rowFilter]
  simp only [Bool.and_eq_true, Bool.or_eq_true, decide_eq_true_eq,
    List.isEmpty_iff, matchesSearch_iff_spec search c hwf]
  tauto

/-- Witness for the amended C7 theorem: the wildcard-free search "Sam"
matches user 1's contact. -/
theorem listing_filter_characterized_w :
    rowFilter 1 samName [] samContactA = true :=
  (listing_filter_characterized 1 samName [] samContactA (by decide)).mpr
    ⟨rfl, Or.inr (Or.inl ⟨[], [], by decide⟩), Or.inl rfl⟩

/-- Claim C8: the listing page is the `(page-1)*10` offset slice of at
most 10 rows of the name-ordered filtered set; the count query uses the
same predicate as the listing query, so `total` is the size of the
filtered set; `total_pages = ⌈total/10⌉`; and the pages in order
concatenate to exactly the filtered set — hence they are pairwise
disjoint segments and their lengths sum to `total`. -/
theorem index_pagination :
    ∀ (db : List Contact) (uid : Nat) (search category_filter : Str) (page : Nat),
      1 ≤ page →
      ((index db uid search category_filter page).contacts
          = ((filteredSorted db uid search category_filter).drop ((page - 1) * 10)).take 10
        ∧ (∀ c : Contact, countFilter uid search category_filter c
            = rowFilter uid search category_filter c)
        ∧ (index db uid search category_filter page).total
            = (filteredSorted db uid search category_filter).length
        ∧ (index db uid search category_filter page).total_pages
            = (index db uid search category_filter page).total ⌈/⌉ 10
        ∧ (index db uid search category_filter page).contacts.length ≤ 10
        ∧ (filteredSorted db uid search category_filter).Pairwise nameLeR
        ∧ ((List.range (index db uid search category_filter page).total_pages).map
            (fun i => (index db uid search category_filter (i + 1)).contacts)).flatten
              = filteredSorted db uid search category_filter
        ∧ ((List.range (index db uid search category_filter page).total_pages).map
            (fun i => (index db uid search category_filter (i + 1)).contacts.length)).sum
              = (index db uid search category_filter page).total) := by
  intro db uid search category_filter page hpage
  have htot : (index db uid search category_filter page).total
      = (filteredSorted db uid search category_filter).length := by
    show (db.filter (countFilter uid search category_filter)).length = _
    rw [show countFilter uid search category_filter
          = rowFilter uid search category_filter from rfl]
    exact (filteredSorted_perm db uid search category_filter).length_eq.symm
  have htp : (index db uid search category_filter page).total_pages
      = ((filteredSorted db uid search category_filter).length + 9) / 10 := by
    show ((index db uid search category_filter page).total + 10 - 1) / 10 = _
    rw [htot]
    omega
  have hceil : (index db uid search category_filter page).total_pages
      = (index db uid search category_filter page).total ⌈/⌉ 10 := by
    rw [Nat.ceilDiv_eq_add_pred_div]
    rfl
  have hfun : (fun i => (index db uid search category_filter (i + 1)).contacts)
      = (fun i => ((filteredSorted db uid search category_filter).drop (i * 10)).take 10) := by
    funext i
    rfl
  have hflat : ((List.range (index db uid search category_filter page).total_pages).map
      (fun i => (index db uid search category_filter (i + 1)).contacts)).flatten
        = filteredSorted db uid search category_filter := by
    rw [htp, hfun]
    exact flatten_chunks10 (filteredSorted db uid search category_filter).length _
      (le_refl _)
  have hsum : ((List.range (index db uid search category_filter page).total_pages).map
      (fun i => (index db uid search category_filter (i + 1)).contacts.length)).sum
        = (index db uid search category_filter page).total := by
    have hlen := congrArg List.length hflat
    rw [List.length_flatten, List.map_map] at hlen
    rw [htot]
    exact hlen
  exact ⟨rfl, fun c => rfl, htot, hceil, List.length_take_le _ _,
    filteredSorted_sorted db uid search category_filter, hflat, hsum⟩

/-- Witness for the C8 theorem at page 1 of the scenario table. -/
theorem index_pagination_w :
    1 ≤ 1 ∧ (index samDb 1 [] [] 1).total = (filteredSorted samDb 1 [] []).length :=
  ⟨by decide, (index_pagination samDb 1 [] [] 1 (by decide)).2.2.1⟩

/-- Claim C9: whenever `add` succeeds, the inserted contact — id `fresh`,
owner `uid`, and every text field equal to the stripped submitted value —
is a row of the user's unfiltered listing result set (the name-ordered
filtered set that the pages slice). -/
theorem add_round_trip :
    ∀ (db : List Contact) (uid fresh : Nat)
      (nameF phoneF emailF addressF notesF categoryF : Str) (db' : List Contact),
      add db uid fresh nameF phoneF emailF addressF notesF categoryF = some db' →
      (⟨fresh, uid, pyStrip nameF, pyStrip phoneF, pyStrip emailF, pyStrip addressF,
          pyStrip notesF, pyStrip categoryF⟩ : Contact) ∈ filteredSorted db' uid [] [] := by
  intro db uid fresh nameF phoneF emailF addressF notesF categoryF db' hadd
  simp only [add] at hadd
  by_cases h1 : (!validate_name (pyStrip nameF)) = true
  · rw [if_pos h1] at hadd
    exact absurd hadd (by simp)
  · rw [if_neg h1] at hadd
    by_cases h2 : (!validate_phone (pyStrip phoneF)) = true
    · rw [if_pos h2] at hadd
      exact absurd hadd (by simp)
    · rw [if_neg h2] at hadd
      by_cases h3 : (!validate_email (pyStrip emailF)) = true
      · rw [if_pos h3] at hadd
        exact absurd hadd (by simp)
      · rw [if_neg h3] at hadd
        rw [Option.some.injEq] at hadd
        subst hadd
        rw [mem_filteredSorted]
        refine ⟨by simp, ?_⟩
        simp [rowFilter]

/-- Witness for the C9 theorem: adding " Bo " with valid phone and email
as user 1 and reading the listing back yields the trimmed values. -/
theorem add_round_trip_w :
    (⟨1, 1, pyStrip " Bo ".data, pyStrip "+1 (555) 123-4567".data, pyStrip "a@b.co".data,
        pyStrip [], pyStrip [], pyStrip "General".data⟩ : Contact)
      ∈ filteredSorted boDb 1 [] [] :=
  add_round_trip [] 1 1 " Bo ".data "+1 (555) 123-4567".data "a@b.co".data [] []
    "General".data boDb (by decide)

/-- Claim C10: `export_contacts` renders each row by quote-wrapping the
six fields with no escaping (`csvRowBody`).  Consequently a row whose
fields contain no double quote and no newline parses back (standard CSV
quoted-field grammar) to exactly the stored values, while the row of a
contact with a double quote in its name does not parse back to its
stored values (the parse fails). -/
theorem export_row_round_trip :
    (∀ c : Contact,
        (∀ f ∈ [c.name, c.phone, c.email, c.address, c.notes, c.category],
          ∀ ch ∈ f, ch ≠ '"' ∧ ch ≠ '\n') →
        parseCsvRow (csvRowBody c)
          = some [c.name, c.phone, c.email, c.address, c.notes, c.category])
    ∧ parseCsvRow (csvRowBody quoteContact) = none
    ∧ '"' ∈ quoteContact.name := by
  refine ⟨?_, by decide, by decide⟩
  intro c hf
  have hname : ∀ ch ∈ c.name, ch ≠ '"' := fun ch h => (hf c.name (by simp) ch h).1
  have hphone : ∀ ch ∈ c.phone, ch ≠ '"' := fun ch h => (hf c.phone (by simp) ch h).1
  have hemail : ∀ ch ∈ c.email, ch ≠ '"' := fun ch h => (hf c.email (by simp) ch h).1
  have haddr : ∀ ch ∈ c.address, ch ≠ '"' := fun ch h => (hf c.address (by simp) ch h).1
  have hnotes : ∀ ch ∈ c.notes, ch ≠ '"' := fun ch h => (hf c.notes (by simp) ch h).1
  have hcat : ∀ ch ∈ c.category, ch ≠ '"' := fun ch h => (hf c.category (by simp) ch h).1
  have e1 : parseQuotedFields 1 (quoteWrap c.category) = some [c.category] :=
    parseQuotedFields_one _ hcat
  have s2 := parseQuotedFields_step 0 c.notes (quoteWrap c.category) hnotes
  norm_num at s2
  have e2 : parseQuotedFields 2 (quoteWrap c.notes ++ ',' :: quoteWrap c.category)
      = some [c.notes, c.category] := by
    rw [s2, e1]
    rfl
  have s3 := parseQuotedFields_step 1 c.address
    (quoteWrap c.notes ++ ',' :: quoteWrap c.category) haddr
  norm_num at s3
  have e3 : parseQuotedFields 3 (quoteWrap c.address
      ++ ',' :: (quoteWrap c.notes ++ ',' :: quoteWrap c.category))
      = some [c.address, c.notes, c.category] := by
    rw [s3, e2]
    rfl
  have s4 := parseQuotedFields_step 2 c.email
    (quoteWrap c.address ++ ',' :: (quoteWrap c.notes ++ ',' :: quoteWrap c.category)) hemail
  norm_num at s4
  have e4 : parseQuotedFields 4 (quoteWrap c.email ++ ',' :: (quoteWrap c.address
      ++ ',' :: (quoteWrap c.notes ++ ',' :: quoteWrap c.category)))
      = some [c.email, c.address, c.notes, c.category] := by
    rw [s4, e3]
    rfl
  have s5 := parseQuotedFields_step 3 c.phone
    (quoteWrap c.email ++ ',' :: (quoteWrap c.address
      ++ ',' :: (quoteWrap c.notes ++ ',' :: quoteWrap c.category))) hphone
  norm_num at s5
  have e5 : parseQuotedFields 5 (quoteWrap c.phone ++ ',' :: (quoteWrap c.email
      ++ ',' :: (quoteWrap c.address ++ ',' :: (quoteWrap c.notes
      ++ ',' :: quoteWrap c.category))))
      = some [c.phone, c.email, c.address, c.notes, c.category] := by
    rw [s5, e4]
    rfl
  have s6 := parseQuotedFields_step 4 c.name
    (quoteWrap c.phone ++ ',' :: (quoteWrap c.email ++ ',' :: (quoteWrap c.address
      ++ ',' :: (quoteWrap c.notes ++ ',' :: quoteWrap c.category)))) hname
  norm_num at s6
  have e6 : parseQuotedFields 6 (quoteWrap c.name ++ ',' :: (quoteWrap c.phone
      ++ ',' :: (quoteWrap c.email ++ ',' :: (quoteWrap c.address
      ++ ',' :: (quoteWrap c.notes ++ ',' :: quoteWrap c.category)))))
      = some [c.name, c.phone, c.email, c.address, c.notes, c.category] := by
    rw [s6, e5]
    rfl
  show parseQuotedFields 6 (csvRowBody c) = _
  simp only [csvRowBody, List.append_assoc, List.cons_append]
  simp only [List.append_assoc, List.cons_append] at e6
  exact e6

/-- Witness for the C10 theorem: the clean scenario contact's row parses
back to its six stored fields. -/
theorem export_row_round_trip_w :
    parseCsvRow (csvRowBody samContactA)
      = some [samContactA.name, samContactA.phone, samContactA.email,
          samContactA.address, samContactA.notes, samContactA.category] :=
  export_row_round_trip.1 samContactA (by decide)

end Crmos
